import Mathlib

/-!
Verification of the CAEN HV wrapper binding layer (`caen_libs/_utils.py` and
`caen_libs/caenhvwrapper.py`), shallowly embedded in Lean 4.

Modelling conventions:
* A C byte buffer is a `List Nat` (each element one byte; reading past the end
  of the list yields zero bytes, i.e. the buffer is followed by zeroed memory).
* `ctypes.string_at(addr)` is `stringAt buf addr`: the bytes from offset `addr`
  up to the first zero byte.
* Python strings at the device layer are Lean `String`; byte-level decoded
  names stay `List Nat`.
* `c_float` payloads are modelled as `Int` carriers: no claim in scope performs
  float arithmetic, only moves values between fields.
* Native-library behaviour is an explicit environment (`NativeEnv`) of response
  functions; every native invocation is recorded in a trace (`List NativeCall`).
* Python exceptions are `Except PyErr`.
-/

/-- Model of `ctypes.string_at`: bytes at offset `addr` up to the first
zero byte (memory past the end of the modelled buffer reads as zero). -/
def stringAt (buf : List Nat) (addr : Nat) : List Nat :=
  (buf.drop addr).takeWhile (fun b => b ≠ 0)

/-- Recursion of `str_from_char` (`_utils.py`): decode `n` null-terminated
strings back-to-back starting at `addr`, advancing by each length + 1. -/
def str_from_char_at (buf : List Nat) (n : Nat) (addr : Nat) : List (List Nat) :=
  match n with
  | 0 => []
  | n + 1 =>
    let value := stringAt buf addr
    value :: str_from_char_at buf n (addr + value.length + 1)

/-- `str_from_char(data, n_strings)` from `_utils.py`. -/
def str_from_char (data : List Nat) (n_strings : Nat) : List (List Nat) :=
  str_from_char_at data n_strings 0

/-- A `ctypes` pointer to a char buffer: `some buf` is a valid pointer,
`none` a null/dangling pointer whose dereference (`.contents`) fails.
The decoders below return `none` exactly when they dereference an
invalid pointer. -/
abbrev CharPtr := Option (List Nat)

/-- `str_from_char_p(data, n_strings)` from `_utils.py`: dereferences
`data.contents` only when `n_strings != 0`. -/
def str_from_char_p (data : CharPtr) (n_strings : Nat) : Option (List (List Nat)) :=
  if n_strings ≠ 0 then
    match data with
    | some buf => some (str_from_char buf n_strings)
    | none => none
  else
    some []

/-- Fuel-driven form of the `while True` loop of `str_from_char_array`
(`_utils.py`): read a string at `addr`; stop on the first empty string,
else advance by `string_size`.  The fuel only bounds the number of
iterations; `str_from_char_array` supplies enough fuel for every
terminating run of the source loop. -/
def str_from_char_array_fuel (fuel : Nat) (buf : List Nat) (string_size : Nat)
    (addr : Nat) : List (List Nat) :=
  match fuel with
  | 0 => []
  | fuel + 1 =>
    let value := stringAt buf addr
    if value.length = 0 then []
    else value :: str_from_char_array_fuel fuel buf string_size (addr + string_size)

/-- `str_from_char_array(data, string_size)` from `_utils.py`: fixed-stride,
stop at the first zero-length string.  (When `string_size > 0` the source
loop terminates within `data.length + 1` iterations, since each iteration
with a non-empty string needs `addr < data.length` and strictly
increases `addr`; the fuel is therefore not observable.) -/
def str_from_char_array (data : List Nat) (string_size : Nat) : List (List Nat) :=
  str_from_char_array_fuel (data.length + 1) data string_size 0

/-- Recursion of `str_from_n_char_array` (`_utils.py`): `n` strings at a
fixed stride. -/
def str_from_n_char_array_at (buf : List Nat) (string_size : Nat) (n : Nat)
    (addr : Nat) : List (List Nat) :=
  match n with
  | 0 => []
  | n + 1 =>
    stringAt buf addr :: str_from_n_char_array_at buf string_size n (addr + string_size)

/-- `str_from_n_char_array(data, string_size, n_strings)` from `_utils.py`. -/
def str_from_n_char_array (data : List Nat) (string_size : Nat) (n_strings : Nat) :
    List (List Nat) :=
  str_from_n_char_array_at data string_size n_strings 0

/-- `str_from_n_char_array_p(data, string_size, n_strings)` from `_utils.py`:
dereferences `data.contents` only when `n_strings != 0`. -/
def str_from_n_char_array_p (data : CharPtr) (string_size : Nat) (n_strings : Nat) :
    Option (List (List Nat)) :=
  if n_strings ≠ 0 then
    match data with
    | some buf => some (str_from_n_char_array buf string_size n_strings)
    | none => none
  else
    some []

/-- Encoder for the count-prefixed variable-length null-separated layout:
each string followed by its null terminator, back-to-back. -/
def encodePacked (ss : List (List Nat)) : List Nat :=
  ss.flatMap (fun s => s ++ [0])

/-- Pad one string with zero bytes to the fixed stride. -/
def padTo (string_size : Nat) (s : List Nat) : List Nat :=
  s ++ List.replicate (string_size - s.length) 0

/-- Encoder for the fixed-stride null-separated layout. -/
def encodeStride (string_size : Nat) (ss : List (List Nat)) : List Nat :=
  ss.flatMap (padTo string_size)

/-- Wrapper to `CAENHV_SYSTEM_TYPE_t` (`caenhvwrapper.py`). -/
inductive SystemType where
  | SY1527 | SY2527 | SY4527 | SY5527 | N568 | V65XX | N1470 | V8100 | N568E
  | DT55XX | FTK | DT55XXE | N1068 | SMARTHV | NGPS | N1168 | R6060
deriving DecidableEq

/-- Wrapper to the link types for `InitSystem` (`caenhvwrapper.py`). -/
inductive LinkType where
  | TCPIP | RS232 | CAENET | USB | OPTLINK | USB_VCP | USB3 | A4818
deriving DecidableEq

/-- Wrapper to `PARAM_TYPE_*` (`caenhvwrapper.py`). -/
inductive ParamType where
  | NUMERIC | ONOFF | CHSTATUS | BDSTATUS | BINARY | STRING | ENUM | CMD
deriving DecidableEq

/-- `ParamType(value)`: the enum constructor, `none` when the int is not a
member (Python raises `ValueError` there). -/
def ParamType.ofNat? : Nat → Option ParamType
  | 0 => some .NUMERIC
  | 1 => some .ONOFF
  | 2 => some .CHSTATUS
  | 3 => some .BDSTATUS
  | 4 => some .BINARY
  | 5 => some .STRING
  | 6 => some .ENUM
  | 7 => some .CMD
  | _ => none

/-- Wrapper to `PARAM_MODE_*` (`caenhvwrapper.py`). -/
inductive ParamMode where
  | RDONLY | WRONLY | RDWR
deriving DecidableEq

/-- `ParamMode(value)`. -/
def ParamMode.ofNat? : Nat → Option ParamMode
  | 0 => some .RDONLY
  | 1 => some .WRONLY
  | 2 => some .RDWR
  | _ => none

/-- Wrapper to `PARAM_UN_*` (`caenhvwrapper.py`). -/
inductive ParamUnit where
  | NONE | AMPERE | VOLT | WATT | CELSIUS | HERTZ | BAR | VPS | SECOND
  | RPM | COUNT | BIT | APS
deriving DecidableEq

/-- `ParamUnit(value)`. -/
def ParamUnit.ofNat? : Nat → Option ParamUnit
  | 0 => some .NONE
  | 1 => some .AMPERE
  | 2 => some .VOLT
  | 3 => some .WATT
  | 4 => some .CELSIUS
  | 5 => some .HERTZ
  | 6 => some .BAR
  | 7 => some .VPS
  | 8 => some .SECOND
  | 9 => some .RPM
  | 10 => some .COUNT
  | 11 => some .BIT
  | 12 => some .APS
  | _ => none

/-- Shape of a Python value passed to `set_bd_param` / `set_ch_param`
(`Union[float, int, str]`); `c_float` payloads are carried as `Int`. -/
inductive PyValue where
  | vfloat (v : Int)
  | vint (v : Int)
  | vstr (s : String)
deriving DecidableEq

/-- The encoded C representation built by `__set_param`:
`ct.c_float(value)`, `ct.c_int(value)` or `value.encode()`. -/
inductive CValue where
  | cfloat (v : Int)
  | cint (v : Int)
  | cstr (s : String)
deriving DecidableEq

/-- Python exceptions raised by the wrapper layer.  `nativeError` is the
structured `Error` raised by the binder's errcheck hook;
`runtimeErrorParams` stands for the f-string RuntimeError naming failed
parameter indices. -/
inductive PyErr where
  | nativeError (code : Nat) (func : String)
  | runtimeError (msg : String)
  | runtimeErrorParams (func : String) (failed : List Nat)
  | indexError
  | keyError
  | valueError
  | assertionError
  | typeError
  | unboundLocalError
deriving DecidableEq

/-- Wrapper to the type returned by `CAENHV_GetBdParamProp`
(`ParamProp` dataclass); `minval`/`maxval` carry the `c_float` payload as
`Int`, `exp` the `c_short` payload. -/
structure ParamProp where
  name : String
  type : Option ParamType
  mode : Option ParamMode
  minval : Option Int := none
  maxval : Option Int := none
  unit : Option ParamUnit := none
  exp : Option Int := none
  onstate : Option String := none
  offstate : Option String := none
  enum : Option (List (List Nat)) := none
deriving DecidableEq

/-- The `Device` dataclass (`caenhvwrapper.py`).  Sockets are opaque
integer identifiers. -/
structure Device where
  handle : Int
  opened : Bool
  system_type : SystemType
  link_type : LinkType
  arg : String
  username : String
  password : String
  port : Int := 0
  skt_server : Option Int := none
  skt_client : Option Int := none
deriving DecidableEq

/-- One recorded invocation of a native entry point, with the arguments
the wrapper passes. -/
inductive NativeCall where
  | initSystemC (st : SystemType) (lt : LinkType) (arg user pwd : String)
  | bdParamPropC (handle slot : Int) (nm prop : String)
  | chParamPropC (handle slot channel : Int) (nm prop : String)
  | getBdParamC (handle : Int) (n : Nat) (idx : List Int) (nm : String)
  | setBdParamC (handle : Int) (n : Nat) (idx : List Int) (nm : String) (value : CValue)
  | getChParamC (handle slot : Int) (nm : String) (n : Nat) (idx : List Int)
  | setChParamC (handle slot : Int) (nm : String) (n : Nat) (idx : List Int) (value : CValue)
  | getBdParamInfoC (handle slot : Int)
  | getChParamInfoC (handle slot channel : Int)
  | getSysPropC (handle : Int) (nm : String)
  | subscribeSystemParamsC (handle port : Int) (names : String) (n : Nat)
  | subscribeBoardParamsC (handle port slot : Int) (names : String) (n : Nat)
  | subscribeChannelParamsC (handle port slot channel : Int) (names : String) (n : Nat)
  | unsubSystemParamsC (handle port : Int) (names : String) (n : Nat)
  | unsubBoardParamsC (handle port slot : Int) (names : String) (n : Nat)
  | unsubChannelParamsC (handle port slot channel : Int) (names : String) (n : Nat)
deriving DecidableEq

/-- Native responses to the sub-attribute queries of `__get_param_prop`,
for one (handle, slot, channel, name) target.  Each field models the
status code and output buffer of one `GetBdParamProp`/`GetChParamProp`
call: `.error code` is a non-OK status (absorbed by `_get`), `.ok v` the
value the native call wrote into the typed output buffer. -/
structure PropResp where
  typeQ : Except Nat Nat
  modeQ : Except Nat Nat
  minvalQ : Except Nat Int
  maxvalQ : Except Nat Int
  unitQ : Except Nat Nat
  expQ : Except Nat Int
  onstateQ : Except Nat String
  offstateQ : Except Nat String
  enumQ : Except Nat (List Nat)

/-- The behaviour of the native library: one response function per bound
entry point (split by the type of the output buffer the wrapper passes).
`.error code` models a non-OK status raised by the errcheck hook. -/
structure NativeEnv where
  initSystem : SystemType → LinkType → String → String → String → Except Nat Int
  paramProp : Int → Int → Option Int → String → PropResp
  getBdParamNum : Int → Nat → List Int → String → Except Nat (List Int)
  getBdParamStr : Int → Nat → List Int → String → Except Nat (List Nat)
  getChParamNum : Int → Int → String → Nat → List Int → Except Nat (List Int)
  getChParamStr : Int → Int → String → Nat → List Int → Except Nat (List Nat)
  setBdParamE : Int → Nat → List Int → String → CValue → Except Nat Unit
  setChParamE : Int → Int → String → Nat → List Int → CValue → Except Nat Unit
  getBdParamInfoE : Int → Int → Except Nat (List Nat)
  getChParamInfoE : Int → Int → Int → Except Nat (List Nat × Int)
  getSysPropE : Int → String → Except Nat (List Nat)
  subscribeSystemParamsE : Int → Int → String → Nat → Except Nat (List Nat)
  subscribeBoardParamsE : Int → Int → Int → String → Nat → Except Nat (List Nat)
  subscribeChannelParamsE : Int → Int → Int → Int → String → Nat → Except Nat (List Nat)
  unsubSystemParamsE : Int → Int → String → Nat → Except Nat (List Nat)
  unsubBoardParamsE : Int → Int → Int → String → Nat → Except Nat (List Nat)
  unsubChannelParamsE : Int → Int → Int → Int → String → Nat → Except Nat (List Nat)
  accept : Int → Int

/-- The `except Error: return None` absorption of `_get` in
`__get_param_prop`: a failed sub-attribute query becomes `None`. -/
def absorb {α : Type} : Except Nat α → Option α
  | .error _ => none
  | .ok v => some v

/-- Decode of the `Type` sub-attribute: absorbed native failure gives
`none`; a successful read outside the enum raises `ValueError`
(the `ParamType(v.value)` conversion runs outside the try block). -/
def decodeType (r : Except Nat Nat) : Except PyErr (Option ParamType) :=
  match r with
  | .error _ => .ok none
  | .ok v =>
    match ParamType.ofNat? v with
    | some t => .ok (some t)
    | none => .error .valueError

/-- Decode of the `Mode` sub-attribute, as `decodeType`. -/
def decodeMode (r : Except Nat Nat) : Except PyErr (Option ParamMode) :=
  match r with
  | .error _ => .ok none
  | .ok v =>
    match ParamMode.ofNat? v with
    | some m => .ok (some m)
    | none => .error .valueError

/-- Decode of the `Unit` sub-attribute, as `decodeType`. -/
def decodeUnit (r : Except Nat Nat) : Except PyErr (Option ParamUnit) :=
  match r with
  | .error _ => .ok none
  | .ok v =>
    match ParamUnit.ofNat? v with
    | some u => .ok (some u)
    | none => .error .valueError

/-- The native call recorded for one sub-attribute query of
`__get_param_prop` (board or channel flavour by `channel`). -/
def propCall (handle slot : Int) (channel : Option Int) (nm prop : String) : NativeCall :=
  match channel with
  | none => .bdParamPropC handle slot nm prop
  | some c => .chParamPropC handle slot c nm prop

/-- `Device.__get_param_prop` (`caenhvwrapper.py`): probe `Type` and `Mode`,
then the sub-attributes of the discovered kind, absorbing failed queries.
The source's NUMERIC branch assigns the `Exp` query result into `minval`
(second assignment to the same field); this is preserved verbatim.  The
source's ENUM branch reads the unassigned local `enum` when the `Enum`
query was absorbed, which raises `UnboundLocalError`. -/
def getParamProp (env : NativeEnv) (d : Device) (slot : Int) (nm : String)
    (channel : Option Int) : Except PyErr ParamProp × List NativeCall :=
  let pr := env.paramProp d.handle slot channel nm
  let call := propCall d.handle slot channel nm
  match decodeType pr.typeQ with
  | .error e => (.error e, [call "Type"])
  | .ok param_type =>
    match decodeMode pr.modeQ with
    | .error e => (.error e, [call "Type", call "Mode"])
    | .ok param_mode =>
      let res : ParamProp := { name := nm, type := param_type, mode := param_mode }
      match param_type with
      | some .NUMERIC =>
        let res := { res with minval := absorb pr.minvalQ }
        let res := { res with maxval := absorb pr.maxvalQ }
        match decodeUnit pr.unitQ with
        | .error e =>
          (.error e,
           [call "Type", call "Mode", call "Minval", call "Maxval", call "Unit"])
        | .ok u =>
          let res := { res with unit := u }
          let res := { res with minval := absorb pr.expQ }
          (.ok res,
           [call "Type", call "Mode", call "Minval", call "Maxval", call "Unit",
            call "Exp"])
      | some .ONOFF =>
        let res := { res with onstate := absorb pr.onstateQ }
        let res := { res with offstate := absorb pr.offstateQ }
        (.ok res, [call "Type", call "Mode", call "Onstate", call "Offstate"])
      | some .ENUM =>
        let res := { res with minval := absorb pr.minvalQ }
        let res := { res with maxval := absorb pr.maxvalQ }
        match res.minval, res.maxval with
        | some mn, some mx =>
          let n_enum_value : Int := mx - mn
          (match pr.enumQ with
           | .error _ =>
             (.error .unboundLocalError,
              [call "Type", call "Mode", call "Minval", call "Maxval", call "Enum"])
           | .ok buf =>
             (.ok { res with enum := some (str_from_char buf n_enum_value.toNat) },
              [call "Type", call "Mode", call "Minval", call "Maxval", call "Enum"]))
        | _, _ => (.ok res, [call "Type", call "Mode", call "Minval", call "Maxval"])
      | _ => (.ok res, [call "Type", call "Mode"])

/-- The shared type-discovery step of `__get_param`/`__set_param`:
`get_bd_param_prop(first_index, name)` when `slot is None`, else
`get_ch_param_prop(slot, first_index, name)`. -/
def paramTypeDiscovery (env : NativeEnv) (d : Device) (first : Int) (nm : String)
    (slot : Option Int) : Except PyErr ParamProp × List NativeCall :=
  match slot with
  | none => getParamProp env d first nm none
  | some s => getParamProp env d s nm (some first)

/-- Result of `__get_param`: numeric kinds come back as a plain list
(float payloads carried as `Int`), string kind via the packed decode. -/
inductive GetResult where
  | nums (l : List Int)
  | strs (l : List (List Nat))
deriving DecidableEq

/-- `Device.__get_param` (`caenhvwrapper.py`): `index_list[0]` (IndexError
on an empty list), type discovery, typed buffer, native call, decode. -/
def getParam (env : NativeEnv) (d : Device) (index_list : List Int) (nm : String)
    (slot : Option Int) : Except PyErr GetResult × List NativeCall :=
  match index_list with
  | [] => (.error .indexError, [])
  | first :: _ =>
    let n := index_list.length
    match paramTypeDiscovery env d first nm slot with
    | (.error e, tr) => (.error e, tr)
    | (.ok prop, tr) =>
      match prop.type with
      | none => (.error .keyError, tr)
      | some pt =>
        match slot with
        | none =>
          if pt = .STRING then
            match env.getBdParamStr d.handle n index_list nm with
            | .error code =>
              (.error (.nativeError code "CAENHV_GetBdParam"),
               tr ++ [.getBdParamC d.handle n index_list nm])
            | .ok buf =>
              (.ok (.strs (str_from_char buf n)),
               tr ++ [.getBdParamC d.handle n index_list nm])
          else
            match env.getBdParamNum d.handle n index_list nm with
            | .error code =>
              (.error (.nativeError code "CAENHV_GetBdParam"),
               tr ++ [.getBdParamC d.handle n index_list nm])
            | .ok vals =>
              (.ok (.nums vals), tr ++ [.getBdParamC d.handle n index_list nm])
        | some s =>
          if pt = .STRING then
            match env.getChParamStr d.handle s nm n index_list with
            | .error code =>
              (.error (.nativeError code "CAENHV_GetChParam"),
               tr ++ [.getChParamC d.handle s nm n index_list])
            | .ok buf =>
              (.ok (.strs (str_from_char buf n)),
               tr ++ [.getChParamC d.handle s nm n index_list])
          else
            match env.getChParamNum d.handle s nm n index_list with
            | .error code =>
              (.error (.nativeError code "CAENHV_GetChParam"),
               tr ++ [.getChParamC d.handle s nm n index_list])
            | .ok vals =>
              (.ok (.nums vals), tr ++ [.getChParamC d.handle s nm n index_list])

/-- The value-shape check the source's `__set_param` actually performs:
`isinstance(value, (int, float))` for NUMERIC, `isinstance(value, str)`
for STRING, `isinstance(value, int)` for every other kind (a `None`
discovered type falls into the final branch). -/
def codeValueMatches : Option ParamType → PyValue → Bool
  | some .NUMERIC, .vint _ => true
  | some .NUMERIC, .vfloat _ => true
  | some .NUMERIC, _ => false
  | some .STRING, .vstr _ => true
  | some .STRING, _ => false
  | _, .vint _ => true
  | _, _ => false

/-- Modelled from the spec: the spec's value-shape contract
"numeric ⇒ float, string ⇒ string, everything else ⇒ int", read literally
(an `int` passed for a numeric parameter is a mismatch).  Used only to
state claim C6 as written, for comparison with `codeValueMatches`. -/
def specValueMatches : Option ParamType → PyValue → Bool
  | some .NUMERIC, .vfloat _ => true
  | some .NUMERIC, _ => false
  | some .STRING, .vstr _ => true
  | some .STRING, _ => false
  | _, .vint _ => true
  | _, _ => false

/-- The assert-and-encode step of `__set_param`: a failed isinstance
assert raises `AssertionError`, otherwise the value is encoded as
`c_float` / encoded bytes / `c_int`. -/
def encodeSetValue : Option ParamType → PyValue → Except PyErr CValue
  | some .NUMERIC, .vint v => .ok (.cfloat v)
  | some .NUMERIC, .vfloat v => .ok (.cfloat v)
  | some .NUMERIC, _ => .error .assertionError
  | some .STRING, .vstr s => .ok (.cstr s)
  | some .STRING, _ => .error .assertionError
  | _, .vint v => .ok (.cint v)
  | _, _ => .error .assertionError

/-- `Device.__set_param` (`caenhvwrapper.py`): `index_list[0]`, type
discovery, isinstance assert + encode, native set call. -/
def setParam (env : NativeEnv) (d : Device) (index_list : List Int) (nm : String)
    (value : PyValue) (slot : Option Int) : Except PyErr Unit × List NativeCall :=
  match index_list with
  | [] => (.error .indexError, [])
  | first :: _ =>
    let n := index_list.length
    match paramTypeDiscovery env d first nm slot with
    | (.error e, tr) => (.error e, tr)
    | (.ok prop, tr) =>
      match encodeSetValue prop.type value with
      | .error e => (.error e, tr)
      | .ok l_data =>
        match slot with
        | none =>
          match env.setBdParamE d.handle n index_list nm l_data with
          | .error code =>
            (.error (.nativeError code "CAENHV_SetBdParam"),
             tr ++ [.setBdParamC d.handle n index_list nm l_data])
          | .ok _ =>
            (.ok (), tr ++ [.setBdParamC d.handle n index_list nm l_data])
        | some s =>
          match env.setChParamE d.handle s nm n index_list l_data with
          | .error code =>
            (.error (.nativeError code "CAENHV_SetChParam"),
             tr ++ [.setChParamC d.handle s nm n index_list l_data])
          | .ok _ =>
            (.ok (), tr ++ [.setChParamC d.handle s nm n index_list l_data])

/-- `Device.__get_param_info` (`caenhvwrapper.py`): decode names at the
fixed stride `10` (the source's `MAX_PARAM_NAME`), stopping at the first
empty name; for the channel flavour additionally assert that the decoded
count equals the natively returned one. -/
def getParamInfo (env : NativeEnv) (d : Device) (slot : Int) (channel : Option Int) :
    Except PyErr (List (List Nat)) × List NativeCall :=
  match channel with
  | none =>
    match env.getBdParamInfoE d.handle slot with
    | .error code =>
      (.error (.nativeError code "CAENHV_GetBdParamInfo"), [.getBdParamInfoC d.handle slot])
    | .ok buf =>
      (.ok (str_from_char_array buf 10), [.getBdParamInfoC d.handle slot])
  | some ch =>
    match env.getChParamInfoE d.handle slot ch with
    | .error code =>
      (.error (.nativeError code "CAENHV_GetChParamInfo"),
       [.getChParamInfoC d.handle slot ch])
    | .ok (buf, sz) =>
      let res := str_from_char_array buf 10
      if (res.length : Int) = sz then (.ok res, [.getChParamInfoC d.handle slot ch])
      else (.error .assertionError, [.getChParamInfoC d.handle slot ch])

/-- `':'.join(param_list)`. -/
def joinColon (param_list : List String) : String :=
  String.intercalate ":" param_list

/-- The per-parameter result-code buffer after the native call: a
zero-initialised `c_char * n` array of which the native layer wrote
`raw`. -/
def fillCodes (n : Nat) (raw : List Nat) : List Nat :=
  raw.take n ++ List.replicate (n - raw.length) 0

/-- `[i for i, ec in enumerate(result_codes) if ec]`. -/
def failedIndices (codes : List Nat) : List Nat :=
  (codes.enum.filter (fun p => p.2 ≠ 0)).map Prod.fst

/-- First four bytes of a buffer read as a little-endian signed 32-bit
value (the `ct.cast(v, _P(_socket)).contents.value` read of
`_PROP_TYPE_GET_ARG[SysPropType.SOCKET]` on a non-Windows platform). -/
def decodeInt32LE (buf : List Nat) : Int :=
  let u := buf.getD 0 0 + 256 * buf.getD 1 0 + 65536 * buf.getD 2 0
    + 16777216 * buf.getD 3 0
  if u < 2147483648 then (u : Int) else (u : Int) - 4294967296

/-- `Device.__init_events_server`: idempotent; skipped for R6060; else
bind a listening socket on port `10001 + handle` (the socket is modelled
by its port number). -/
def initEventsServer (d : Device) : Device :=
  if d.skt_server.isSome then d
  else if d.system_type = SystemType.R6060 then d
  else
    let port := 10001 + d.handle
    { d with port := port, skt_server := some port }

/-- `Device.__init_events_client`: idempotent; for R6060 read the
`EventDataSocket` system property (the source's `get_sys_prop` is
hard-coded to the SOCKET type for exactly this system/name pair, so only
that branch is reachable here and is inlined); otherwise accept on the
listening server socket (`assert self.skt_server is not None`). -/
def initEventsClient (env : NativeEnv) (d : Device) :
    Except PyErr Unit × Device × List NativeCall :=
  if d.skt_client.isSome then (.ok (), d, [])
  else if d.system_type = SystemType.R6060 then
    match env.getSysPropE d.handle "EventDataSocket" with
    | .error code =>
      (.error (.nativeError code "CAENHV_GetSysProp"), d,
       [.getSysPropC d.handle "EventDataSocket"])
    | .ok buf =>
      let lib_socket := decodeInt32LE buf
      (.ok (), { d with port := 0, skt_client := some lib_socket },
       [.getSysPropC d.handle "EventDataSocket"])
  else
    match d.skt_server with
    | none => (.error .assertionError, d, [])
    | some s => (.ok (), { d with skt_client := some (env.accept s) }, [])

/-- `Device.subscribe_system_params` (`caenhvwrapper.py`). -/
def subscribe_system_params (env : NativeEnv) (d : Device) (param_list : List String) :
    Except PyErr Unit × Device × List NativeCall :=
  let d1 := initEventsServer d
  let n := param_list.length
  let joined := joinColon param_list
  let c := NativeCall.subscribeSystemParamsC d1.handle d1.port joined n
  match env.subscribeSystemParamsE d1.handle d1.port joined n with
  | .error code => (.error (.nativeError code "CAENHV_SubscribeSystemParams"), d1, [c])
  | .ok raw =>
    match initEventsClient env d1 with
    | (.error e, d2, tr2) => (.error e, d2, c :: tr2)
    | (.ok _, d2, tr2) =>
      let result_codes := fillCodes n raw
      if result_codes.any (fun x => x ≠ 0) then
        (.error (.runtimeErrorParams "subscribe_system_params" (failedIndices result_codes)),
         d2, c :: tr2)
      else (.ok (), d2, c :: tr2)

/-- `Device.subscribe_board_params` (`caenhvwrapper.py`). -/
def subscribe_board_params (env : NativeEnv) (d : Device) (slot : Int)
    (param_list : List String) : Except PyErr Unit × Device × List NativeCall :=
  let d1 := initEventsServer d
  let n := param_list.length
  let joined := joinColon param_list
  let c := NativeCall.subscribeBoardParamsC d1.handle d1.port slot joined n
  match env.subscribeBoardParamsE d1.handle d1.port slot joined n with
  | .error code => (.error (.nativeError code "CAENHV_SubscribeBoardParams"), d1, [c])
  | .ok raw =>
    match initEventsClient env d1 with
    | (.error e, d2, tr2) => (.error e, d2, c :: tr2)
    | (.ok _, d2, tr2) =>
      let result_codes := fillCodes n raw
      if result_codes.any (fun x => x ≠ 0) then
        (.error (.runtimeErrorParams "subscribe_board_params" (failedIndices result_codes)),
         d2, c :: tr2)
      else (.ok (), d2, c :: tr2)

/-- `Device.subscribe_channel_params` (`caenhvwrapper.py`). -/
def subscribe_channel_params (env : NativeEnv) (d : Device) (slot channel : Int)
    (param_list : List String) : Except PyErr Unit × Device × List NativeCall :=
  let d1 := initEventsServer d
  let n := param_list.length
  let joined := joinColon param_list
  let c := NativeCall.subscribeChannelParamsC d1.handle d1.port slot channel joined n
  match env.subscribeChannelParamsE d1.handle d1.port slot channel joined n with
  | .error code => (.error (.nativeError code "CAENHV_SubscribeChannelParams"), d1, [c])
  | .ok raw =>
    match initEventsClient env d1 with
    | (.error e, d2, tr2) => (.error e, d2, c :: tr2)
    | (.ok _, d2, tr2) =>
      let result_codes := fillCodes n raw
      if result_codes.any (fun x => x ≠ 0) then
        (.error (.runtimeErrorParams "subscribe_channel_params" (failedIndices result_codes)),
         d2, c :: tr2)
      else (.ok (), d2, c :: tr2)

/-- `Device.unsubscribe_system_params` (`caenhvwrapper.py`).  The source's
guard is `any(l_result_codes)`, iterating the raw ctypes `c_char` array
whose elements are one-byte `bytes` objects — truthy even for `b'\x00'` —
so the guard is equivalent to the buffer being non-empty; this is
preserved verbatim. -/
def unsubscribe_system_params (env : NativeEnv) (d : Device) (param_list : List String) :
    Except PyErr Unit × Device × List NativeCall :=
  let n := param_list.length
  let joined := joinColon param_list
  let c := NativeCall.unsubSystemParamsC d.handle d.port joined n
  match env.unsubSystemParamsE d.handle d.port joined n with
  | .error code => (.error (.nativeError code "CAENHV_UnSubscribeSystemParams"), d, [c])
  | .ok raw =>
    let result_codes := fillCodes n raw
    if result_codes.length ≠ 0 then
      (.error (.runtimeErrorParams "unsubscribe_system_params" (failedIndices result_codes)),
       d, [c])
    else (.ok (), d, [c])

/-- `Device.unsubscribe_board_params` (`caenhvwrapper.py`); same
`any(l_result_codes)` guard over raw bytes as the system flavour. -/
def unsubscribe_board_params (env : NativeEnv) (d : Device) (slot : Int)
    (param_list : List String) : Except PyErr Unit × Device × List NativeCall :=
  let n := param_list.length
  let joined := joinColon param_list
  let c := NativeCall.unsubBoardParamsC d.handle d.port slot joined n
  match env.unsubBoardParamsE d.handle d.port slot joined n with
  | .error code => (.error (.nativeError code "CAENHV_UnSubscribeBoardParams"), d, [c])
  | .ok raw =>
    let result_codes := fillCodes n raw
    if result_codes.length ≠ 0 then
      (.error (.runtimeErrorParams "unsubscribe_board_params" (failedIndices result_codes)),
       d, [c])
    else (.ok (), d, [c])

/-- `Device.unsubscribe_channel_params` (`caenhvwrapper.py`); this flavour
checks `any(result_codes)` over the decoded integer codes. -/
def unsubscribe_channel_params (env : NativeEnv) (d : Device) (slot channel : Int)
    (param_list : List String) : Except PyErr Unit × Device × List NativeCall :=
  let n := param_list.length
  let joined := joinColon param_list
  let c := NativeCall.unsubChannelParamsC d.handle d.port slot channel joined n
  match env.unsubChannelParamsE d.handle d.port slot channel joined n with
  | .error code => (.error (.nativeError code "CAENHV_UnSubscribeChannelParams"), d, [c])
  | .ok raw =>
    let result_codes := fillCodes n raw
    if result_codes.any (fun x => x ≠ 0) then
      (.error (.runtimeErrorParams "unsubscribe_channel_params" (failedIndices result_codes)),
       d, [c])
    else (.ok (), d, [c])

/-- `Device.connect` (`caenhvwrapper.py`): refuse when already opened,
else re-run `InitSystem` and store the fresh handle. -/
def Device.connect (env : NativeEnv) (d : Device) :
    Except PyErr Unit × Device × List NativeCall :=
  if d.opened then (.error (.runtimeError "Already connected."), d, [])
  else
    match env.initSystem d.system_type d.link_type d.arg d.username d.password with
    | .error code =>
      (.error (.nativeError code "CAENHV_InitSystem"), d,
       [.initSystemC d.system_type d.link_type d.arg d.username d.password])
    | .ok h =>
      (.ok (), { d with handle := h, opened := true },
       [.initSystemC d.system_type d.link_type d.arg d.username d.password])

/-- The bound native entry points relevant to `Device.exec_comm`. -/
inductive Binding where
  | bExecComm
  | bGetExecCommList
deriving DecidableEq

/-- Number of declared argument types from `_Lib.__load_api`:
`ExecComm` is bound with `(c_int, c_char_p)`, `GetExecCommList` with
`(c_int, c_ushort_p, c_char_p_p)`.  ctypes raises `TypeError` when a
bound function is called with fewer arguments than its argtypes. -/
def bindingArity : Binding → Nat
  | .bExecComm => 2
  | .bGetExecCommList => 3

/-- An argument passed to a bound function. -/
inductive CArg where
  | aint (v : Int)
  | astr (s : String)
deriving DecidableEq

/-- The call `Device.exec_comm` actually makes (source line
`lib.get_exec_comm_list(self.handle, name.encode())`): the
`GetExecCommList` binding with two arguments. -/
def exec_comm_call (d : Device) (nm : String) : Binding × List CArg :=
  (.bGetExecCommList, [.aint d.handle, .astr nm])

/-- `Device.exec_comm` (`caenhvwrapper.py`): invoke the binding chosen by
`exec_comm_call`; ctypes rejects the call with `TypeError` before
reaching the native library when fewer arguments than argtypes are
supplied. -/
def exec_comm (d : Device) (nm : String) : Except PyErr Unit :=
  let c := exec_comm_call d nm
  if c.2.length < bindingArity c.1 then .error .typeError else .ok ()

/-- A benign sub-attribute response set for witnesses. -/
def propRespDefault : PropResp :=
  { typeQ := .ok 0, modeQ := .ok 2, minvalQ := .ok 0, maxvalQ := .ok 100,
    unitQ := .ok 2, expQ := .ok 3, onstateQ := .ok "On", offstateQ := .ok "Off",
    enumQ := .ok [] }

/-- A benign native environment for witnesses. -/
def envDefault : NativeEnv :=
  { initSystem := fun _ _ _ _ _ => .ok 7,
    paramProp := fun _ _ _ _ => propRespDefault,
    getBdParamNum := fun _ n _ _ => .ok (List.replicate n 0),
    getBdParamStr := fun _ _ _ _ => .ok [],
    getChParamNum := fun _ _ _ n _ => .ok (List.replicate n 0),
    getChParamStr := fun _ _ _ _ _ => .ok [],
    setBdParamE := fun _ _ _ _ _ => .ok (),
    setChParamE := fun _ _ _ _ _ _ => .ok (),
    getBdParamInfoE := fun _ _ => .ok [],
    getChParamInfoE := fun _ _ _ => .ok ([], 0),
    getSysPropE := fun _ _ => .ok [9],
    subscribeSystemParamsE := fun _ _ _ _ => .ok [],
    subscribeBoardParamsE := fun _ _ _ _ _ => .ok [],
    subscribeChannelParamsE := fun _ _ _ _ _ _ => .ok [],
    unsubSystemParamsE := fun _ _ _ _ => .ok [],
    unsubBoardParamsE := fun _ _ _ _ _ => .ok [],
    unsubChannelParamsE := fun _ _ _ _ _ _ => .ok [],
    accept := fun s => s + 1 }

/-- A concrete opened device for witnesses. -/
def dev0 : Device :=
  { handle := 7, opened := true, system_type := .SY4527, link_type := .TCPIP,
    arg := "192.0.2.1", username := "", password := "" }

/-- Environment for C1: the native unsubscribe calls succeed and fill
every per-parameter result code with zero. -/
def env1 : NativeEnv := { envDefault with
  unsubSystemParamsE := fun _ _ _ _ => .ok [0],
  unsubBoardParamsE := fun _ _ _ _ _ => .ok [0],
  unsubChannelParamsE := fun _ _ _ _ _ _ => .ok [0] }

/-- Native name buffer for C2: `ABCDE` at offset 0, `FGH` at offset 10,
terminated by an empty name at offset 20. -/
def c2buf : List Nat :=
  [65, 66, 67, 68, 69, 0, 0, 0, 0, 0, 70, 71, 72, 0, 0, 0, 0, 0, 0, 0]

/-- Environment for C2: parameter-name enumeration returns `c2buf`
(with count 2 for the channel flavour). -/
def env2 : NativeEnv := { envDefault with
  getBdParamInfoE := fun _ _ => .ok c2buf,
  getChParamInfoE := fun _ _ _ => .ok (c2buf, 2) }

/-- Environment for the C5 witness: every subscribe call reports the
result codes `[0, 0, 1, 0]`. -/
def env5 : NativeEnv := { envDefault with
  subscribeSystemParamsE := fun _ _ _ _ => .ok [0, 0, 1, 0],
  subscribeBoardParamsE := fun _ _ _ _ _ => .ok [0, 0, 1, 0],
  subscribeChannelParamsE := fun _ _ _ _ _ _ => .ok [0, 0, 1, 0] }

/-- The device state after server and client setup in the C5 witness:
`dev0` with the listening socket bound on port 10001 + 7 and the
accepted client socket. -/
def dev5 : Device := { dev0 with
  port := 10008, skt_server := some 10008, skt_client := some 10009 }

/-- The `ParamProp` produced by `getParamProp` under `envDefault` for a
NUMERIC parameter: note `minval` holds the `Exp` query result (3) and
`exp` is unset. -/
def prop0 : ParamProp :=
  { name := "V0", type := some .NUMERIC, mode := some .RDWR, minval := some 3,
    maxval := some 100, unit := some .VOLT }

/-- Trace of the sub-attribute queries for `prop0` at slot 0. -/
def tr0 : List NativeCall :=
  [.bdParamPropC 7 0 "V0" "Type", .bdParamPropC 7 0 "V0" "Mode",
   .bdParamPropC 7 0 "V0" "Minval", .bdParamPropC 7 0 "V0" "Maxval",
   .bdParamPropC 7 0 "V0" "Unit", .bdParamPropC 7 0 "V0" "Exp"]

/-- Trace of the sub-attribute queries for `prop0` at slot 1 (the C6
witnesses discover the type from first index 1). -/
def tr6 : List NativeCall :=
  [.bdParamPropC 7 1 "V0" "Type", .bdParamPropC 7 1 "V0" "Mode",
   .bdParamPropC 7 1 "V0" "Minval", .bdParamPropC 7 1 "V0" "Maxval",
   .bdParamPropC 7 1 "V0" "Unit", .bdParamPropC 7 1 "V0" "Exp"]

/-- The parameter type discovered by the get/set path (`None` when the
discovery raised or the `Type` query was absorbed). -/
def discoveredType (env : NativeEnv) (d : Device) (first : Int) (nm : String)
    (slot : Option Int) : Option ParamType :=
  match (paramTypeDiscovery env d first nm slot).1 with
  | .ok p => p.type
  | .error _ => none

lemma stringAt_shift (pre buf : List Nat) (a : Nat) :
    stringAt (pre ++ buf) (pre.length + a) = stringAt buf a := by
  unfold stringAt
  rw [List.drop_append a]

lemma takeWhile_append_stop (p : Nat → Bool) (s rest : List Nat)
    (h : ∀ b ∈ s, p b = true) (h0 : p 0 = false) :
    (s ++ 0 :: rest).takeWhile p = s := by
  induction s with
  | nil => simp [List.takeWhile_cons, h0]
  | cons a s ih =>
    have ha := h a (by simp)
    have ih' := ih (fun b hb => h b (by simp [hb]))
    rw [List.cons_append, List.takeWhile_cons, ha]
    simp [ih']

lemma stringAt_of_clean (s rest : List Nat) (h : ∀ b ∈ s, b ≠ 0) :
    stringAt (s ++ 0 :: rest) 0 = s := by
  unfold stringAt
  rw [List.drop_zero]
  exact takeWhile_append_stop _ s rest (fun b hb => by simp [h b hb]) (by simp)

lemma padTo_length (string_size : Nat) (s : List Nat) (h : s.length ≤ string_size) :
    (padTo string_size s).length = string_size := by
  simp [padTo]
  omega

lemma padTo_append (string_size : Nat) (s rest : List Nat) (h : s.length < string_size) :
    padTo string_size s ++ rest
      = s ++ 0 :: (List.replicate (string_size - s.length - 1) 0 ++ rest) := by
  have hrep : List.replicate (string_size - s.length) 0
      = 0 :: List.replicate (string_size - s.length - 1) (0 : Nat) := by
    conv_lhs => rw [show string_size - s.length = (string_size - s.length - 1) + 1 by omega]
    rw [List.replicate_succ]
  simp [padTo, hrep]

lemma str_from_char_at_encodePacked (ss : List (List Nat)) (pre : List Nat)
    (h : ∀ s ∈ ss, ∀ b ∈ s, b ≠ 0) :
    str_from_char_at (pre ++ encodePacked ss) ss.length pre.length = ss := by
  induction ss generalizing pre with
  | nil => simp [str_from_char_at]
  | cons s ss ih =>
    have hs : ∀ b ∈ s, b ≠ 0 := h s (by simp)
    have hss : ∀ t ∈ ss, ∀ b ∈ t, b ≠ 0 := fun t ht => h t (by simp [ht])
    have henc : encodePacked (s :: ss) = (s ++ [0]) ++ encodePacked ss := by
      simp [encodePacked]
    rw [henc, List.length_cons, str_from_char_at]
    have hval : stringAt (pre ++ ((s ++ [0]) ++ encodePacked ss)) pre.length = s := by
      have := stringAt_shift pre ((s ++ [0]) ++ encodePacked ss) 0
      rw [Nat.add_zero] at this
      rw [this]
      have : (s ++ [0]) ++ encodePacked ss = s ++ 0 :: encodePacked ss := by simp
      rw [this]
      exact stringAt_of_clean s _ hs
    simp only [hval]
    have hbuf : pre ++ ((s ++ [0]) ++ encodePacked ss)
        = (pre ++ (s ++ [0])) ++ encodePacked ss := by
      simp
    have haddr : pre.length + s.length + 1 = (pre ++ (s ++ [0])).length := by
      simp only [List.length_append, List.length_cons, List.length_nil]
      omega
    rw [hbuf, haddr, ih (pre ++ (s ++ [0])) hss]

lemma str_from_n_char_array_at_encode (string_size : Nat) (ss : List (List Nat))
    (pre : List Nat) (h : ∀ s ∈ ss, (∀ b ∈ s, b ≠ 0) ∧ s.length < string_size) :
    str_from_n_char_array_at (pre ++ encodeStride string_size ss) string_size
      ss.length pre.length = ss := by
  induction ss generalizing pre with
  | nil => simp [str_from_n_char_array_at]
  | cons s ss ih =>
    obtain ⟨hs, hlen⟩ := h s (by simp)
    have hss : ∀ t ∈ ss, (∀ b ∈ t, b ≠ 0) ∧ t.length < string_size :=
      fun t ht => h t (by simp [ht])
    have henc : encodeStride string_size (s :: ss)
        = padTo string_size s ++ encodeStride string_size ss := by
      simp [encodeStride]
    rw [henc, List.length_cons, str_from_n_char_array_at]
    have hval : stringAt (pre ++ (padTo string_size s ++ encodeStride string_size ss))
        pre.length = s := by
      have hsh := stringAt_shift pre (padTo string_size s ++ encodeStride string_size ss) 0
      rw [Nat.add_zero] at hsh
      rw [hsh, padTo_append string_size s _ hlen]
      exact stringAt_of_clean s _ hs
    rw [hval]
    have hbuf : pre ++ (padTo string_size s ++ encodeStride string_size ss)
        = (pre ++ padTo string_size s) ++ encodeStride string_size ss := by
      simp
    have haddr : pre.length + string_size = (pre ++ padTo string_size s).length := by
      rw [List.length_append, padTo_length string_size s (Nat.le_of_lt hlen)]
    rw [hbuf, haddr, ih (pre ++ padTo string_size s) hss]

lemma str_from_char_array_fuel_encode (string_size : Nat) (ss : List (List Nat))
    (pre : List Nat) (fuel : Nat)
    (h : ∀ s ∈ ss, (∀ b ∈ s, b ≠ 0) ∧ s ≠ [] ∧ s.length < string_size)
    (hfuel : ss.length < fuel) :
    str_from_char_array_fuel fuel (pre ++ (encodeStride string_size ss ++ [0]))
      string_size pre.length = ss := by
  induction ss generalizing pre fuel with
  | nil =>
    obtain ⟨fuel, rfl⟩ : ∃ f, fuel = f + 1 := ⟨fuel - 1, by omega⟩
    rw [str_from_char_array_fuel]
    have hval : stringAt (pre ++ (encodeStride string_size [] ++ [0])) pre.length = [] := by
      have hsh := stringAt_shift pre (encodeStride string_size [] ++ [0]) 0
      rw [Nat.add_zero] at hsh
      rw [hsh]
      simp [encodeStride, stringAt]
    simp [hval]
  | cons s ss ih =>
    obtain ⟨fuel, rfl⟩ : ∃ f, fuel = f + 1 := ⟨fuel - 1, by omega⟩
    obtain ⟨hs, hne, hlen⟩ := h s (by simp)
    have hss : ∀ t ∈ ss, (∀ b ∈ t, b ≠ 0) ∧ t ≠ [] ∧ t.length < string_size :=
      fun t ht => h t (by simp [ht])
    have henc : encodeStride string_size (s :: ss) ++ [0]
        = padTo string_size s ++ (encodeStride string_size ss ++ [0]) := by
      simp [encodeStride]
    rw [henc, str_from_char_array_fuel]
    have hval : stringAt
        (pre ++ (padTo string_size s ++ (encodeStride string_size ss ++ [0])))
        pre.length = s := by
      have hsh := stringAt_shift pre
        (padTo string_size s ++ (encodeStride string_size ss ++ [0])) 0
      rw [Nat.add_zero] at hsh
      rw [hsh, padTo_append string_size s _ hlen]
      exact stringAt_of_clean s _ hs
    have hne' : s.length ≠ 0 := by
      intro hz
      exact hne (List.eq_nil_of_length_eq_zero hz)
    simp only [hval, if_neg hne']
    have hbuf : pre ++ (padTo string_size s ++ (encodeStride string_size ss ++ [0]))
        = (pre ++ padTo string_size s) ++ (encodeStride string_size ss ++ [0]) := by
      simp
    have haddr : pre.length + string_size = (pre ++ padTo string_size s).length := by
      rw [List.length_append, padTo_length string_size s (Nat.le_of_lt hlen)]
    rw [hbuf, haddr, ih (pre ++ padTo string_size s) fuel hss (by simpa using hfuel)]

lemma encodeStride_length_ge (string_size : Nat) (ss : List (List Nat))
    (h : ∀ s ∈ ss, s.length < string_size) :
    ss.length ≤ (encodeStride string_size ss).length := by
  induction ss with
  | nil => simp [encodeStride]
  | cons s ss ih =>
    have hlen := h s (by simp)
    have hss : ∀ t ∈ ss, t.length < string_size := fun t ht => h t (by simp [ht])
    have hpad : 1 ≤ (padTo string_size s).length := by
      rw [padTo_length string_size s (Nat.le_of_lt hlen)]
      omega
    have : encodeStride string_size (s :: ss)
        = padTo string_size s ++ encodeStride string_size ss := by
      simp [encodeStride]
    rw [this, List.length_append, List.length_cons]
    have := ih hss
    omega

lemma initEventsClient_client_connected (env : NativeEnv) (d d2 : Device)
    (tr : List NativeCall) (h : initEventsClient env d = (.ok (), d2, tr)) :
    d2.skt_client.isSome = true := by
  unfold initEventsClient at h
  split at h
  · next hc =>
    simp only [Prod.mk.injEq] at h
    obtain ⟨-, hd, -⟩ := h
    exact hd ▸ hc
  · split at h
    · split at h
      · simp at h
      · simp only [Prod.mk.injEq] at h
        obtain ⟨-, hd, -⟩ := h
        subst hd
        rfl
    · split at h
      · simp at h
      · simp only [Prod.mk.injEq] at h
        obtain ⟨-, hd, -⟩ := h
        subst hd
        rfl

/-- C7: encoding N null-free strings with the packed layout, the fixed-stride
layout (strings fitting the stride), or the fixed-stride-with-terminator
layout (additionally non-empty strings) and decoding with `str_from_char`,
`str_from_n_char_array`, `str_from_char_array` respectively recovers
exactly the original strings, in order. -/
theorem claim_c7_roundtrip (string_size : Nat) (ss : List (List Nat))
    (hnz : ∀ s ∈ ss, ∀ b ∈ s, b ≠ 0) :
    str_from_char (encodePacked ss) ss.length = ss
    ∧ ((∀ s ∈ ss, s.length < string_size) →
        str_from_n_char_array (encodeStride string_size ss) string_size ss.length = ss)
    ∧ ((∀ s ∈ ss, s ≠ [] ∧ s.length < string_size) →
        str_from_char_array (encodeStride string_size ss ++ [0]) string_size = ss) := by
  refine ⟨?_, ?_, ?_⟩
  · have h := str_from_char_at_encodePacked ss [] hnz
    simpa [str_from_char] using h
  · intro hfit
    have h := str_from_n_char_array_at_encode string_size ss []
      (fun s hs => ⟨hnz s hs, hfit s hs⟩)
    simpa [str_from_n_char_array] using h
  · intro hfit
    have hfuel : ss.length < (encodeStride string_size ss ++ [0]).length + 1 := by
      cases ss with
      | nil => simp
      | cons s rest =>
        have h1 : ∀ t ∈ s :: rest, t.length < string_size := fun t ht => (hfit t ht).2
        have h2 := encodeStride_length_ge string_size (s :: rest) h1
        simp only [List.length_append, List.length_cons, List.length_nil] at h2 ⊢
        omega
    have h := str_from_char_array_fuel_encode string_size ss []
      ((encodeStride string_size ss ++ [0]).length + 1)
      (fun s hs => ⟨hnz s hs, hfit s hs⟩) hfuel
    simpa [str_from_char_array] using h

/-- Witness for C7 at a concrete input. -/
theorem claim_c7_roundtrip_witness :
    str_from_char (encodePacked [[65, 66], [67]]) 2 = [[65, 66], [67]]
    ∧ str_from_n_char_array (encodeStride 5 [[65, 66], [67]]) 5 2 = [[65, 66], [67]]
    ∧ str_from_char_array (encodeStride 5 [[65, 66], [67]] ++ [0]) 5 = [[65, 66], [67]] := by
  obtain ⟨h1, h2, h3⟩ := claim_c7_roundtrip 5 [[65, 66], [67]] (by decide)
  exact ⟨h1, h2 (by decide), h3 (by decide)⟩

/-- C8: with a string count of zero, the pointer-indirected decoders
return the empty sequence for every pointer, including a null/dangling
one (whose dereference is modelled as `none`): the pointer is never
dereferenced. -/
theorem claim_c8_zero_count (data : CharPtr) (string_size : Nat) :
    str_from_char_p data 0 = some []
    ∧ str_from_n_char_array_p data string_size 0 = some [] :=
  ⟨rfl, rfl⟩

/-- C10: every batched get/set called with an empty index list raises
`IndexError` at `index_list[0]`, with no native call (hence neither the
native get/set entry point nor any native buffer allocation, both of
which come later in the source). -/
theorem claim_c10_empty_index_list (env : NativeEnv) (d : Device) (nm : String)
    (value : PyValue) (slot : Option Int) :
    getParam env d [] nm slot = (.error .indexError, [])
    ∧ setParam env d [] nm value slot = (.error .indexError, []) :=
  ⟨rfl, rfl⟩

/-- C9: `connect()` on an already-opened device raises
`RuntimeError('Already connected.')`, issues no native call, and returns
the device completely unchanged. -/
theorem claim_c9_connect_already_open (env : NativeEnv) (d : Device)
    (h : d.opened = true) :
    Device.connect env d = (.error (.runtimeError "Already connected."), d, []) := by
  unfold Device.connect
  simp [h]

/-- Witness for C9 on a concrete opened device. -/
theorem claim_c9_connect_already_open_witness :
    Device.connect envDefault dev0 = (.error (.runtimeError "Already connected."), dev0, []) :=
  claim_c9_connect_already_open envDefault dev0 rfl

/-- C3 (code bug): `Device.exec_comm` invokes the `GetExecCommList`
binding, not `ExecComm`, and with two arguments against three declared
argtypes, so ctypes raises `TypeError` and no native call is made at
all — contradicting both the claim and the method's own docstring. -/
theorem claim_c3_exec_comm_bug (d : Device) (nm : String) :
    (exec_comm_call d nm).1 = Binding.bGetExecCommList
    ∧ (exec_comm_call d nm).1 ≠ Binding.bExecComm
    ∧ exec_comm d nm = .error .typeError :=
  ⟨rfl, by simp [exec_comm_call], rfl⟩

/-- C1 (code bug): with a one-parameter request whose result code is zero,
`unsubscribe_system_params` and `unsubscribe_board_params` still raise
(naming an empty failed-index list), because their guard is
`any(l_result_codes)` over raw one-byte `bytes` elements, which are
always truthy; `unsubscribe_channel_params` checks the decoded integer
codes and returns normally. -/
theorem claim_c1_unsubscribe_bug :
    (unsubscribe_system_params env1 dev0 ["P"]).1
        = .error (.runtimeErrorParams "unsubscribe_system_params" [])
    ∧ (unsubscribe_board_params env1 dev0 0 ["P"]).1
        = .error (.runtimeErrorParams "unsubscribe_board_params" [])
    ∧ (unsubscribe_channel_params env1 dev0 0 0 ["P"]).1 = .ok () :=
  ⟨rfl, rfl, rfl⟩

/-- C5: whenever the native subscribe call succeeds and fills at least one
non-zero per-parameter result code, each subscribe operation raises a
RuntimeError naming exactly the indices of the non-zero codes, and only
after the client-connection setup has completed, so the returned device
has its client socket connected. -/
theorem claim_c5_subscribe_partial_failure (env : NativeEnv) (d : Device)
    (slot channel : Int) (param_list : List String) (raw1 raw2 raw3 : List Nat)
    (d2 : Device) (tr2 : List NativeCall)
    (hclient : initEventsClient env (initEventsServer d) = (.ok (), d2, tr2))
    (h1 : env.subscribeSystemParamsE (initEventsServer d).handle
        (initEventsServer d).port (joinColon param_list) param_list.length = .ok raw1)
    (h2 : env.subscribeBoardParamsE (initEventsServer d).handle
        (initEventsServer d).port slot (joinColon param_list) param_list.length
        = .ok raw2)
    (h3 : env.subscribeChannelParamsE (initEventsServer d).handle
        (initEventsServer d).port slot channel (joinColon param_list)
        param_list.length = .ok raw3)
    (hnz1 : (fillCodes param_list.length raw1).any (fun x => x ≠ 0) = true)
    (hnz2 : (fillCodes param_list.length raw2).any (fun x => x ≠ 0) = true)
    (hnz3 : (fillCodes param_list.length raw3).any (fun x => x ≠ 0) = true) :
    subscribe_system_params env d param_list
      = (.error (.runtimeErrorParams "subscribe_system_params"
            (failedIndices (fillCodes param_list.length raw1))), d2,
         NativeCall.subscribeSystemParamsC (initEventsServer d).handle
           (initEventsServer d).port (joinColon param_list) param_list.length :: tr2)
    ∧ subscribe_board_params env d slot param_list
      = (.error (.runtimeErrorParams "subscribe_board_params"
            (failedIndices (fillCodes param_list.length raw2))), d2,
         NativeCall.subscribeBoardParamsC (initEventsServer d).handle
           (initEventsServer d).port slot (joinColon param_list) param_list.length
           :: tr2)
    ∧ subscribe_channel_params env d slot channel param_list
      = (.error (.runtimeErrorParams "subscribe_channel_params"
            (failedIndices (fillCodes param_list.length raw3))), d2,
         NativeCall.subscribeChannelParamsC (initEventsServer d).handle
           (initEventsServer d).port slot channel (joinColon param_list)
           param_list.length :: tr2)
    ∧ d2.skt_client.isSome = true := by
  refine ⟨?_, ?_, ?_,
    initEventsClient_client_connected env (initEventsServer d) d2 tr2 hclient⟩
  · unfold subscribe_system_params
    simp only []
    rw [h1, hclient]
    have hx1 := hnz1
    simp only [List.any_eq_true, decide_eq_true_eq] at hx1
    simp [hx1]
  · unfold subscribe_board_params
    simp only []
    rw [h2, hclient]
    have hx2 := hnz2
    simp only [List.any_eq_true, decide_eq_true_eq] at hx2
    simp [hx2]
  · unfold subscribe_channel_params
    simp only []
    rw [h3, hclient]
    have hx3 := hnz3
    simp only [List.any_eq_true, decide_eq_true_eq] at hx3
    simp [hx3]

/-- Witness for C5: a 4-name subscribe request with result codes
`[0,0,1,0]` raises naming exactly index 2, and the client socket is
connected afterwards. -/
theorem claim_c5_subscribe_partial_failure_witness :
    (subscribe_system_params env5 dev0 ["P0", "P1", "P2", "P3"]).1
        = .error (.runtimeErrorParams "subscribe_system_params" [2])
    ∧ dev5.skt_client.isSome = true := by
  have h := claim_c5_subscribe_partial_failure env5 dev0 3 1 ["P0", "P1", "P2", "P3"]
    [0, 0, 1, 0] [0, 0, 1, 0] [0, 0, 1, 0] dev5 [] rfl rfl rfl rfl rfl rfl rfl
  refine ⟨?_, h.2.2.2⟩
  rw [h.1]
  rfl

/-- C4: whenever `__get_param_prop` returns successfully, the returned
`ParamProp.exp` field is `None`; and when the discovered type is NUMERIC,
the `minval` field holds the (absorbed) result of the `Exp` sub-attribute
query, which overwrote the earlier `Minval` result. -/
theorem claim_c4_exp_overwrites_minval (env : NativeEnv) (d : Device) (slot : Int)
    (nm : String) (channel : Option Int) (p : ParamProp) (tr : List NativeCall)
    (h : getParamProp env d slot nm channel = (.ok p, tr)) :
    p.exp = none
    ∧ (p.type = some ParamType.NUMERIC →
        p.minval = absorb (env.paramProp d.handle slot channel nm).expQ) := by
  unfold getParamProp at h
  simp only [] at h
  split at h
  · simp at h
  · split at h
    · simp at h
    · split at h
      · split at h
        · simp at h
        · simp only [Prod.mk.injEq, Except.ok.injEq] at h
          obtain ⟨h1, -⟩ := h
          subst h1
          simp
      · simp only [Prod.mk.injEq, Except.ok.injEq] at h
        obtain ⟨h1, -⟩ := h
        subst h1
        simp
      · split at h
        · split at h
          · simp at h
          · simp only [Prod.mk.injEq, Except.ok.injEq] at h
            obtain ⟨h1, -⟩ := h
            subst h1
            simp
        · simp only [Prod.mk.injEq, Except.ok.injEq] at h
          obtain ⟨h1, -⟩ := h
          subst h1
          simp
      · simp only [Prod.mk.injEq, Except.ok.injEq] at h
        obtain ⟨h1, -⟩ := h
        subst h1
        exact ⟨rfl, fun hx => absurd hx (by assumption)⟩

/-- Witness for C4: under `envDefault` the discovered type is NUMERIC,
`exp` is unset and `minval` holds the `Exp` query result 3 (the `Minval`
query returned 0). -/
theorem claim_c4_exp_overwrites_minval_witness :
    prop0.type = some ParamType.NUMERIC ∧ prop0.exp = none ∧ prop0.minval = some 3 := by
  have h := claim_c4_exp_overwrites_minval envDefault dev0 0 "V0" none prop0 tr0 rfl
  exact ⟨rfl, h.1, (h.2 rfl).trans rfl⟩

/-- C2 counterexample: the decode stride of `__get_param_info` is 10
bytes, not 20: on the concrete native buffer `c2buf` the code returns
the two names read at 10-byte offsets, while a 20-byte-stride read (the
claim's stated layout) yields a different, single-name result. -/
theorem claim_c2_counterexample :
    (getParamInfo env2 dev0 0 none).1 = .ok (str_from_char_array c2buf 10)
    ∧ str_from_char_array c2buf 10 = [[65, 66, 67, 68, 69], [70, 71, 72]]
    ∧ str_from_char_array c2buf 20 = [[65, 66, 67, 68, 69]]
    ∧ str_from_char_array c2buf 10 ≠ str_from_char_array c2buf 20 :=
  ⟨rfl, by decide, by decide, by decide⟩

/-- C2 (amended): parameter-name enumeration decodes at a fixed 10-byte
stride (`MAX_PARAM_NAME`): board scope returns every name at consecutive
10-byte offsets up to the first empty name; channel scope decodes the
same way, and when it returns successfully the number of decoded names
equals the natively returned count. -/
theorem claim_c2_stride10 (env : NativeEnv) (d : Device) (slot ch : Int)
    (buf buf2 : List Nat) (sz : Int)
    (hb : env.getBdParamInfoE d.handle slot = .ok buf)
    (hc : env.getChParamInfoE d.handle slot ch = .ok (buf2, sz)) :
    getParamInfo env d slot none
      = (.ok (str_from_char_array buf 10), [.getBdParamInfoC d.handle slot])
    ∧ ∀ ns, (getParamInfo env d slot (some ch)).1 = .ok ns →
        ns = str_from_char_array buf2 10 ∧ (ns.length : Int) = sz := by
  constructor
  · simp only [getParamInfo, hb]
  · intro ns hns
    simp only [getParamInfo, hc] at hns
    split at hns
    · next hsz =>
      have h2 : Except.ok (str_from_char_array buf2 10) = Except.ok ns := hns
      injection h2 with h2
      refine ⟨h2.symm, ?_⟩
      rw [← h2]
      exact hsz
    · exact absurd hns (by simp)

/-- Witness for the amended C2 on the concrete buffer `c2buf`. -/
theorem claim_c2_stride10_witness :
    getParamInfo env2 dev0 0 none
      = (.ok (str_from_char_array c2buf 10), [.getBdParamInfoC 7 0]) :=
  (claim_c2_stride10 env2 dev0 0 0 c2buf c2buf 2 rfl rfl).1

/-- C6 counterexample: with a NUMERIC parameter and an `int` value — a
mismatch under the claim's "numeric requires a float" contract — the
operation does not fail: it issues the type-discovery native calls and
the native set call and returns normally. -/
theorem claim_c6_counterexample :
    discoveredType envDefault dev0 1 "V0" none = some ParamType.NUMERIC
    ∧ specValueMatches (some ParamType.NUMERIC) (PyValue.vint 3) = false
    ∧ (setParam envDefault dev0 [1] "V0" (.vint 3) none).1 = .ok ()
    ∧ (setParam envDefault dev0 [1] "V0" (.vint 3) none).2
        = tr6 ++ [.setBdParamC 7 1 [1] "V0" (.cfloat 3)] :=
  ⟨rfl, rfl, rfl, rfl⟩

lemma encodeSetValue_of_mismatch (t : Option ParamType) (v : PyValue)
    (h : codeValueMatches t v = false) :
    encodeSetValue t v = .error .assertionError := by
  cases t with
  | none => cases v <;> simp_all [codeValueMatches, encodeSetValue]
  | some pt => cases pt <;> cases v <;> simp_all [codeValueMatches, encodeSetValue]

/-- C6 (amended): when the caller-supplied value's shape does not match
what the code accepts for the discovered type (numeric accepts a float
or an int, string requires a string, every other kind requires an int),
the batched set fails with an AssertionError after the type-discovery
native calls but before the native set entry point is invoked: the trace
is exactly the discovery trace. -/
theorem claim_c6_set_mismatch (env : NativeEnv) (d : Device) (first : Int)
    (rest : List Int) (nm : String) (value : PyValue) (slot : Option Int)
    (p : ParamProp) (tr : List NativeCall)
    (hdisc : paramTypeDiscovery env d first nm slot = (.ok p, tr))
    (hmm : codeValueMatches p.type value = false) :
    setParam env d (first :: rest) nm value slot = (.error .assertionError, tr) := by
  unfold setParam
  simp only [hdisc, encodeSetValue_of_mismatch p.type value hmm]

/-- Witness for the amended C6: a string value for a NUMERIC parameter
fails with AssertionError and the trace stops at the discovery calls. -/
theorem claim_c6_set_mismatch_witness :
    setParam envDefault dev0 [1] "V0" (.vstr "x") none = (.error .assertionError, tr6) :=
  claim_c6_set_mismatch envDefault dev0 1 [] "V0" (.vstr "x") none prop0 tr6 rfl rfl
